import Mathlib

/-!
Verification of the wire layer of the elrs_otg host-side ELRS controller.

Shallow embedding of:
- src/src/crsf_protocol.cpp      (CRSF channel packing, frame building, stick mapping)
- src/src/msp_commands.cpp       (outbound MSP v1 command builder and XOR checksum)
- src/src/telemetry_handler.cpp  (inbound MSP byte-level deframer and dispatch)
- src/samples/elrs_otg_demo_single.cpp (CRSF byte-level deframer, CRC-8/DVB-S2)
- src/src/elrs_transmitter.cpp   (control inputs, emergencyStop)
- src/src/radio_state.cpp        (observable store, bounded histories, notifications)

Machine bytes are modelled as Nat with explicit truncation (% 256) exactly where
the C++ code converts to uint8_t.  C++ float code touched by the claims is
modelled over the rationals; at every input appearing in a claim all intermediate
binary32 values are exactly representable, so the rational computation agrees
with the float computation there.
-/

set_option maxRecDepth 100000

/-- One shift-and-conditionally-xor round of CRC-8/DVB-S2 on an 8-bit
accumulator, from crc8_dvb_s2 in samples/elrs_otg_demo_single.cpp:
if (crc & 0x80) crc = (crc << 1) ^ 0xD5; else crc <<= 1 (uint8_t store). -/
def crc8_dvb_s2_round (crc : Nat) : Nat :=
  if crc &&& 0x80 ≠ 0 then ((crc <<< 1) ^^^ 0xD5) % 256 else (crc <<< 1) % 256

/-- Per-byte update of CRC-8/DVB-S2: crc ^= data[i] followed by eight rounds
(the inner k-loop of crc8_dvb_s2 in samples/elrs_otg_demo_single.cpp). -/
def crc8_dvb_s2_step (crc b : Nat) : Nat :=
  crc8_dvb_s2_round (crc8_dvb_s2_round (crc8_dvb_s2_round (crc8_dvb_s2_round
    (crc8_dvb_s2_round (crc8_dvb_s2_round (crc8_dvb_s2_round (crc8_dvb_s2_round
      (crc ^^^ b))))))))

/-- CRC-8/DVB-S2 (poly 0xD5, init 0x00, no reflection) over a byte list, from
crc8_dvb_s2 in samples/elrs_otg_demo_single.cpp. -/
def crc8_dvb_s2 (data : List Nat) : Nat :=
  data.foldl crc8_dvb_s2_step 0

/-- Modelled from the spec: the 256-entry lookup table crc8_table lives in the
header crsf_protocol.h, which is absent from src/.  The spec fixes the CRC as
CRC-8/DVB-S2 (poly 0xD5, init 0, no reflection), whose standard table has at
index i the eight-round update of the single byte i from accumulator 0. -/
def crc8_table (i : Nat) : Nat :=
  crc8_dvb_s2_step 0 i

/-- Table-driven CRC of CrsfProtocol::crc8 in src/src/crsf_protocol.cpp:
crc = crc8_table[crc ^ data[i]] over the bytes, starting from 0. -/
def crc8 (data : List Nat) : Nat :=
  data.foldl (fun crc b => crc8_table (crc ^^^ b)) 0

/-- Modelled from the spec: CRSF constants from the missing header
crsf_protocol.h.  The spec fixes address 0xC8 (flight controller). -/
def CRSF_ADDRESS_FLIGHT_CONTROLLER : Nat := 0xC8

/-- Modelled from the spec: frame type 0x16, RC channels packed. -/
def CRSF_FRAMETYPE_RC_CHANNELS_PACKED : Nat := 0x16

/-- Modelled from the spec: the packed channel payload is 22 bytes. -/
def CRSF_FRAME_CHANNELS_PAYLOAD_SIZE : Nat := 22

/-- Modelled from the spec: minimum 11-bit CRSF channel value. -/
def CRSF_CHANNEL_VALUE_MIN : Nat := 172

/-- Modelled from the spec: maximum 11-bit CRSF channel value. -/
def CRSF_CHANNEL_VALUE_MAX : Nat := 1811

/-- CrsfProtocol::packChannels from src/src/crsf_protocol.cpp: 16 channels,
11 bits each, packed LSB-first into 22 bytes.  Each list entry mirrors one
static_cast<uint8_t>(...) store; & 0x07FF, >>, << and | are the C++ operators
on the promoted values and % 256 is the uint8_t truncation of the store. -/
def packChannels (ch : Fin 16 → Nat) : List Nat :=
  let c : Fin 16 → Nat := fun i => ch i &&& 0x7FF
  [ (c 0) % 256,
    ((c 0 >>> 8) ||| (c 1 <<< 3)) % 256,
    ((c 1 >>> 5) ||| (c 2 <<< 6)) % 256,
    ((c 2 >>> 2)) % 256,
    ((c 2 >>> 10) ||| (c 3 <<< 1)) % 256,
    ((c 3 >>> 7) ||| (c 4 <<< 4)) % 256,
    ((c 4 >>> 4) ||| (c 5 <<< 7)) % 256,
    ((c 5 >>> 1)) % 256,
    ((c 5 >>> 9) ||| (c 6 <<< 2)) % 256,
    ((c 6 >>> 6) ||| (c 7 <<< 5)) % 256,
    ((c 7 >>> 3)) % 256,
    ((c 8)) % 256,
    ((c 8 >>> 8) ||| (c 9 <<< 3)) % 256,
    ((c 9 >>> 5) ||| (c 10 <<< 6)) % 256,
    ((c 10 >>> 2)) % 256,
    ((c 10 >>> 10) ||| (c 11 <<< 1)) % 256,
    ((c 11 >>> 7) ||| (c 12 <<< 4)) % 256,
    ((c 12 >>> 4) ||| (c 13 <<< 7)) % 256,
    ((c 13 >>> 1)) % 256,
    ((c 13 >>> 9) ||| (c 14 <<< 2)) % 256,
    ((c 14 >>> 6) ||| (c 15 <<< 5)) % 256,
    ((c 15 >>> 3)) % 256 ]

/-- CrsfProtocol::buildRcChannelsFrame from src/src/crsf_protocol.cpp.
Bytes 0..2 are address, length (payload + type + crc = 24) and type; bytes
3..24 the packed channels; byte 25 the CRC the code computes, namely
crc8(&frame_out[1], CRSF_FRAME_CHANNELS_PAYLOAD_SIZE + 1): the 23 bytes at
indices 1..23 of the frame. -/
def buildRcChannelsFrame (ch : Fin 16 → Nat) : List Nat :=
  let body := [CRSF_ADDRESS_FLIGHT_CONTROLLER, CRSF_FRAME_CHANNELS_PAYLOAD_SIZE + 2,
               CRSF_FRAMETYPE_RC_CHANNELS_PACKED] ++ packChannels ch
  body ++ [crc8 ((body.drop 1).take (CRSF_FRAME_CHANNELS_PAYLOAD_SIZE + 1))]

/-- CrsfProtocol::mapStickToChannel from src/src/crsf_protocol.cpp, over ℚ.
normalized = (stick + 1)/2, clamped to [0,1], then min + normalized*(max-min)
truncated by the static_cast<uint16_t> (the value is non-negative, so the
truncation is the floor).  At the inputs the claims evaluate, every
intermediate binary32 value is exactly representable, so the rational
computation coincides with the C++ float computation. -/
def mapStickToChannel (stick_value : ℚ) : Nat :=
  let n1 := (stick_value + 1) / 2
  let n2 := if n1 < 0 then 0 else n1
  let n3 := if n2 > 1 then 1 else n2
  (⌊(CRSF_CHANNEL_VALUE_MIN : ℚ) +
      n3 * ((CRSF_CHANNEL_VALUE_MAX : ℚ) - (CRSF_CHANNEL_VALUE_MIN : ℚ))⌋).toNat

/-- CrsfProtocol::mapThrottleToChannel from src/src/crsf_protocol.cpp, over ℚ:
normalized = throttle, clamped to [0,1], same interpolation and truncation. -/
def mapThrottleToChannel (throttle_value : ℚ) : Nat :=
  let n1 := throttle_value
  let n2 := if n1 < 0 then 0 else n1
  let n3 := if n2 > 1 then 1 else n2
  (⌊(CRSF_CHANNEL_VALUE_MIN : ℚ) +
      n3 * ((CRSF_CHANNEL_VALUE_MAX : ℚ) - (CRSF_CHANNEL_VALUE_MIN : ℚ))⌋).toNat

/-- Parser states of the CRSF deframer in samples/elrs_otg_demo_single.cpp. -/
inductive CrsfSt
  | A_WAIT
  | L_WAIT
  | BODY
deriving DecidableEq

/-- Mutable fields of CrsfDeframer in samples/elrs_otg_demo_single.cpp:
st_, addr_, len_, cnt_ (uint8_t) and buf_. -/
structure CrsfDeframerState where
  st : CrsfSt
  addr : Nat
  len : Nat
  cnt : Nat
  buf : List Nat
deriving DecidableEq

/-- Initial (and reset) state of the CRSF deframer. -/
def crsfInit : CrsfDeframerState :=
  ⟨CrsfSt.A_WAIT, 0, 0, 0, []⟩

/-- CrsfDeframer::feed from samples/elrs_otg_demo_single.cpp.  Returns the
successor state together with the frames (addr, type, payload) handed to the
callback by this byte (empty or a singleton).  In A_WAIT any byte is taken as
the address; in L_WAIT a length below 2 resets; in BODY bytes accumulate until
cnt_ reaches len_ (cnt_ is a uint8_t, hence the % 256), then the trailing byte
is compared against CRC-8/DVB-S2 over [type, payload] and the frame is emitted
on a match. -/
def crsfFeed (s : CrsfDeframerState) (b : Nat) :
    CrsfDeframerState × List (Nat × Nat × List Nat) :=
  match s.st with
  | CrsfSt.A_WAIT => ({ s with st := CrsfSt.L_WAIT, addr := b }, [])
  | CrsfSt.L_WAIT =>
      if b < 2 then (crsfInit, [])
      else ({ s with st := CrsfSt.BODY, len := b, buf := [], cnt := 0 }, [])
  | CrsfSt.BODY =>
      let buf2 := s.buf ++ [b]
      let cnt2 := (s.cnt + 1) % 256
      if s.len ≤ cnt2 then
        (crsfInit,
          if 2 ≤ buf2.length then
            if crc8_dvb_s2 buf2.dropLast = buf2.getLastD 0 then
              [(s.addr, buf2.headD 0, (buf2.drop 1).dropLast)]
            else []
          else [])
      else ({ s with buf := buf2, cnt := cnt2 }, [])

/-- Feed a byte list through the CRSF deframer, collecting emitted frames in
order (the reader loop feeds bytes one at a time). -/
def crsfRun (s : CrsfDeframerState) (l : List Nat) :
    CrsfDeframerState × List (Nat × Nat × List Nat) :=
  match l with
  | [] => (s, [])
  | b :: rest =>
      let fed := crsfFeed s b
      let next := crsfRun fed.1 rest
      (next.1, fed.2 ++ next.2)

/-- MspParserState values of TelemetryHandler in src/include/telemetry_handler.h. -/
inductive MspSt
  | Idle
  | ExpectM
  | ExpectDirection
  | ExpectLength
  | ExpectFunction
  | ReadPayload
  | ExpectChecksum
deriving DecidableEq

/-- Mutable MSP parser fields of TelemetryHandler: msp_state_,
msp_from_device_, msp_expected_length_, msp_function_, msp_checksum_ and
msp_payload_. -/
structure MspParserState where
  st : MspSt
  fromDevice : Bool
  expectedLength : Nat
  func : Nat
  checksum : Nat
  payload : List Nat
deriving DecidableEq

/-- A frame as handed to TelemetryHandler::handleMspFrame, enriched with the
wire length byte and the trailing checksum byte that accepted it. -/
structure MspFrame where
  func : Nat
  fromDevice : Bool
  lenByte : Nat
  payload : List Nat
  chkByte : Nat
deriving DecidableEq

/-- TelemetryHandler::resetMspParser: everything cleared, state Idle. -/
def mspReset : MspParserState :=
  ⟨MspSt.Idle, false, 0, 0, 0, []⟩

/-- TelemetryHandler::feedMspByte from src/src/telemetry_handler.cpp.  Returns
the successor state and the frames passed to handleMspFrame by this byte.
Byte values: 36 is the dollar sign, 77 is M, 60 is the outbound direction
character and 62 the inbound one. -/
def feedMspByte (s : MspParserState) (b : Nat) : MspParserState × List MspFrame :=
  match s.st with
  | MspSt.Idle =>
      (if b = 36 then { s with st := MspSt.ExpectM } else s, [])
  | MspSt.ExpectM =>
      (if b = 77 then { s with st := MspSt.ExpectDirection } else mspReset, [])
  | MspSt.ExpectDirection =>
      (if b = 60 ∨ b = 62 then
        { s with st := MspSt.ExpectLength, fromDevice := b = 62 }
      else mspReset, [])
  | MspSt.ExpectLength =>
      ({ s with st := MspSt.ExpectFunction, expectedLength := b, checksum := b,
                payload := [] }, [])
  | MspSt.ExpectFunction =>
      ({ s with func := b, checksum := s.checksum ^^^ b,
                st := if s.expectedLength = 0 then MspSt.ExpectChecksum
                      else MspSt.ReadPayload }, [])
  | MspSt.ReadPayload =>
      let p2 := s.payload ++ [b]
      ({ s with payload := p2, checksum := s.checksum ^^^ b,
                st := if s.expectedLength ≤ p2.length then MspSt.ExpectChecksum
                      else MspSt.ReadPayload }, [])
  | MspSt.ExpectChecksum =>
      (mspReset,
       if s.checksum = b then
         [⟨s.func, s.fromDevice, s.expectedLength, s.payload, b⟩]
       else [])

/-- Feed a byte list through the MSP deframer, collecting the frames passed to
handleMspFrame in order. -/
def mspRun (s : MspParserState) (l : List Nat) : MspParserState × List MspFrame :=
  match l with
  | [] => (s, [])
  | b :: rest =>
      let fed := feedMspByte s b
      let next := mspRun fed.1 rest
      (next.1, fed.2 ++ next.2)

/-- Frames a byte stream actually dispatches: TelemetryHandler::handleMspFrame
returns immediately when fromDevice is false, so only inbound frames survive
to the function switch. -/
def mspDispatched (stream : List Nat) : List MspFrame :=
  ((mspRun mspReset stream).2).filter (fun f => f.fromDevice)

/-- XOR of a byte list, zero seed: the MSP v1 checksum discipline. -/
def xorAll (l : List Nat) : Nat :=
  l.foldl (fun a b => a ^^^ b) 0

/-- Checksum bookkeeping invariant of the MSP parser: after the length byte,
msp_checksum_ always equals the XOR of the length byte, the function byte and
the payload bytes consumed so far. -/
def MspChecksumInv (s : MspParserState) : Prop :=
  (s.st = MspSt.ExpectFunction → s.checksum = s.expectedLength ∧ s.payload = []) ∧
  (s.st = MspSt.ReadPayload ∨ s.st = MspSt.ExpectChecksum →
    s.checksum = xorAll (s.expectedLength :: s.func :: s.payload))

/-- LinkStats from src/include/telemetry_handler.h. -/
structure LinkStats where
  rssi1 : Int
  rssi2 : Int
  link_quality : Int
  snr : Int
  tx_power : Int
  valid : Bool
deriving DecidableEq

/-- BatteryInfo from src/include/telemetry_handler.h. -/
structure BatteryInfo where
  voltage_mv : Nat
  current_ma : Nat
  capacity_mah : Nat
  valid : Bool
deriving DecidableEq

/-- static_cast<int8_t> of a uint8_t value: two's-complement reinterpretation. -/
def int8 (b : Nat) : Int :=
  if 128 ≤ b then (b : Int) - 256 else (b : Int)

/-- TelemetryHandler::parseLinkStats from src/src/telemetry_handler.cpp.
Returns the parsed stats and the trailing spectrum bins (payload bytes past
the fixed scalars), or none when the payload is rejected.  Length at least 10
selects the legacy layout, otherwise length at least 4 the compact layout. -/
def parseLinkStats (p : List Nat) : Option (LinkStats × List Nat) :=
  if p.length = 0 then none
  else if 10 ≤ p.length then
    some ({ rssi1 := int8 (p.getD 0 0), rssi2 := int8 (p.getD 1 0),
            link_quality := (p.getD 2 0 : Int), snr := int8 (p.getD 3 0),
            tx_power := (p.getD 4 0 : Int), valid := true }, p.drop 10)
  else if 4 ≤ p.length then
    some ({ rssi1 := int8 (p.getD 0 0), rssi2 := int8 (p.getD 0 0),
            link_quality := (p.getD 1 0 : Int), snr := int8 (p.getD 2 0),
            tx_power := (p.getD 3 0 : Int), valid := true }, p.drop 4)
  else none

/-- TelemetryHandler::parseBatteryInfo from src/src/telemetry_handler.cpp:
big-endian 16-bit pairs for voltage, current and capacity. -/
def parseBatteryInfo (p : List Nat) : Option BatteryInfo :=
  if p.length < 6 then none
  else some { voltage_mv := (p.getD 0 0) <<< 8 ||| p.getD 1 0,
              current_ma := (p.getD 2 0) <<< 8 ||| p.getD 3 0,
              capacity_mah := (p.getD 4 0) <<< 8 ||| p.getD 5 0,
              valid := true }

/-- What TelemetryHandler::handleMspFrame publishes for one frame. -/
inductive MspAction
  | publishLink (stats : LinkStats) (spectrum : List Nat)
  | publishBattery (battery : BatteryInfo)
  | noAction
deriving DecidableEq

/-- TelemetryHandler::handleMspFrame from src/src/telemetry_handler.cpp:
outbound frames are dropped, function 0x2D goes to parseLinkStats, 0x2E to
parseBatteryInfo, anything else is ignored. -/
def handleMspFrame (func : Nat) (fromDevice : Bool) (payload : List Nat) : MspAction :=
  if fromDevice = false then MspAction.noAction
  else if func = 0x2D then
    match parseLinkStats payload with
    | some (stats, spectrum) => MspAction.publishLink stats spectrum
    | none => MspAction.noAction
  else if func = 0x2E then
    match parseBatteryInfo payload with
    | some battery => MspAction.publishBattery battery
    | none => MspAction.noAction
  else MspAction.noAction

/-- MspCommands::calculateMspCrc from src/src/msp_commands.cpp: running XOR
over the bytes, seed 0. -/
def calculateMspCrc (data : List Nat) : Nat :=
  data.foldl (fun crc b => crc ^^^ b) 0

/-- MspCommands::buildMspCommand from src/src/msp_commands.cpp.  Bytes 36, 77,
60 are the dollar sign, M and the outbound direction; then the payload size,
the function id and the payload.  The trailing byte mirrors
calculateMspCrc(&out[3], payload_size + 1): the XOR over the first
payload_size + 1 bytes starting at the size byte. -/
def buildMspCommand (func : Nat) (payload : List Nat) : List Nat :=
  let body := [payload.length, func] ++ payload
  [36, 77, 60] ++ body ++ [calculateMspCrc (body.take (payload.length + 1))]

/-- ControlInputs of ElrsTransmitter (src/include/elrs_transmitter.h): float
axes modelled over ℚ, plus the three switches. -/
structure ControlInputs where
  roll : ℚ
  pitch : ℚ
  yaw : ℚ
  throttle : ℚ
  armed : Bool
  mode1 : Bool
  mode2 : Bool
deriving DecidableEq

/-- ElrsTransmitter::emergencyStop from src/src/elrs_transmitter.cpp: every
axis zeroed, every switch forced off. -/
def emergencyStop (s : ControlInputs) : ControlInputs :=
  { s with roll := 0, pitch := 0, yaw := 0, throttle := 0,
           armed := false, mode1 := false, mode2 := false }

/-- LiveTelemetry from src/include/radio_state.h.  The lastUpdate timestamp is
wall-clock state and is not modelled; no claim mentions it. -/
structure LiveTelemetry where
  rssi1 : Int
  rssi2 : Int
  linkQuality : Int
  snr : Int
  txPower : Int
  packetsReceived : Nat
  packetsTransmitted : Nat
  packetsLost : Nat
  packetRate : Nat
  voltage : ℚ
  current : ℚ
  temperature : Int
  isValid : Bool
deriving DecidableEq

/-- MAX_HISTORY_SIZE from src/include/radio_state.h. -/
def MAX_HISTORY_SIZE : Nat := 200

/-- MAX_SPECTRUM_SIZE from src/include/radio_state.h. -/
def MAX_SPECTRUM_SIZE : Nat := 256

/-- RadioState fields touched by the update operations of
src/src/radio_state.cpp, plus an observer model: hasCallback says whether
state_change_callback_ is set, and notifyCount counts its invocations. -/
structure RadioState where
  live : LiveTelemetry
  rssiHistory : List Int
  lqHistory : List Int
  txPowerHistory : List Int
  spectrum : List Int
  hasCallback : Bool
  notifyCount : Nat
deriving DecidableEq

/-- RadioState::addToHistory: push_back, then FIFO-evict the front element
once the size exceeds MAX_HISTORY_SIZE. -/
def addToHistory (history : List Int) (value : Int) : List Int :=
  let h2 := history ++ [value]
  if MAX_HISTORY_SIZE < h2.length then h2.drop 1 else h2

/-- RadioState::notifyStateChange: invoke the callback when one is set. -/
def notifyStateChange (s : RadioState) : RadioState :=
  if s.hasCallback then { s with notifyCount := s.notifyCount + 1 } else s

/-- RadioState::updateTelemetry: replace the live snapshot (stamped valid),
append rssi1, linkQuality and txPower of the argument to the histories,
notify. -/
def updateTelemetry (s : RadioState) (t : LiveTelemetry) : RadioState :=
  notifyStateChange
    { s with live := { t with isValid := true },
             rssiHistory := addToHistory s.rssiHistory t.rssi1,
             lqHistory := addToHistory s.lqHistory t.linkQuality,
             txPowerHistory := addToHistory s.txPowerHistory t.txPower }

/-- RadioState::updateRSSI. -/
def updateRSSI (s : RadioState) (rssi1 rssi2 : Int) : RadioState :=
  notifyStateChange
    { s with live := { s.live with rssi1 := rssi1, rssi2 := rssi2, isValid := true },
             rssiHistory := addToHistory s.rssiHistory rssi1 }

/-- RadioState::updateLinkQuality: the stored value is
std::max(0, std::min(100, quality)) and the history receives the same
clamped value. -/
def updateLinkQuality (s : RadioState) (quality : Int) : RadioState :=
  let lt := { s.live with linkQuality := max 0 (min 100 quality), isValid := true }
  notifyStateChange
    { s with live := lt,
             lqHistory := addToHistory s.lqHistory (max 0 (min 100 quality)) }

/-- RadioState::updateTxPower. -/
def updateTxPower (s : RadioState) (power : Int) : RadioState :=
  notifyStateChange
    { s with live := { s.live with txPower := power, isValid := true },
             txPowerHistory := addToHistory s.txPowerHistory power }

/-- RadioState::updatePacketStats. -/
def updatePacketStats (s : RadioState) (rx tx lost : Nat) : RadioState :=
  let lt := { s.live with packetsReceived := rx, packetsTransmitted := tx, packetsLost := lost, isValid := true }
  notifyStateChange { s with live := lt }

/-- RadioState::updateBattery. -/
def updateBattery (s : RadioState) (voltage current : ℚ) : RadioState :=
  let lt := { s.live with voltage := voltage, current := current, isValid := true }
  notifyStateChange { s with live := lt }

/-- RadioState::updateTemperature. -/
def updateTemperature (s : RadioState) (temp : Int) : RadioState :=
  notifyStateChange
    { s with live := { s.live with temperature := temp, isValid := true } }

/-- RadioState::updateSpectrumData from src/src/radio_state.cpp: empty input
returns without doing anything (no notification); otherwise the snapshot is
replaced, truncated to the last MAX_SPECTRUM_SIZE bins, and observers are
notified. -/
def updateSpectrumData (s : RadioState) (data : List Int) : RadioState :=
  if data = [] then s
  else
    notifyStateChange
      { s with spectrum := if MAX_SPECTRUM_SIZE < data.length then
                 data.drop (data.length - MAX_SPECTRUM_SIZE) else data }

/-- A concrete RadioState with a subscribed observer: every LiveTelemetry
field at its C++ default initialiser, histories empty, counter zero. -/
def radioState0 : RadioState :=
  { live := { rssi1 := -120, rssi2 := -120, linkQuality := 0, snr := 0,
              txPower := 0, packetsReceived := 0, packetsTransmitted := 0,
              packetsLost := 0, packetRate := 0, voltage := 0, current := 0,
              temperature := 0, isValid := false },
    rssiHistory := [], lqHistory := [], txPowerHistory := [], spectrum := [],
    hasCallback := true, notifyCount := 0 }

/-- The callback bookkeeping never touches the live snapshot. -/
theorem notifyStateChange_live (s : RadioState) : (notifyStateChange s).live = s.live := by
  unfold notifyStateChange
  split <;> rfl

/-- The callback bookkeeping never touches the link-quality history. -/
theorem notifyStateChange_lqHistory (s : RadioState) :
    (notifyStateChange s).lqHistory = s.lqHistory := by
  unfold notifyStateChange
  split <;> rfl

/-- Whatever was already stored, the most recent history entry is always the
value just appended; FIFO eviction only drops from the front. -/
theorem addToHistory_getLast (history : List Int) (value : Int) :
    (addToHistory history value).getLast? = some value := by
  simp only [addToHistory]
  split
  · rename_i hlen
    match history with
    | [] => simp [MAX_HISTORY_SIZE] at hlen
    | x :: rest => simp
  · simp

/-- Claim C1: for the all-centre input (16 channels of 992) the frame has 26
bytes with address 0xC8, length 24 and type 0x16, but byte 25 is the CRC the
code computes over frame bytes 1..23 only, not the CRC over bytes 1..24
(length, type and the full 22-byte payload) that the claim requires: the call
crc8(&frame_out[1], CRSF_FRAME_CHANNELS_PAYLOAD_SIZE + 1) covers 23 bytes and
leaves the last packed byte out. -/
theorem crsf_frame_crc_region_C1 :
    (buildRcChannelsFrame (fun _ => 992)).length = 26 ∧
    (buildRcChannelsFrame (fun _ => 992)).getD 0 0 = 0xC8 ∧
    (buildRcChannelsFrame (fun _ => 992)).getD 1 0 = 24 ∧
    (buildRcChannelsFrame (fun _ => 992)).getD 2 0 = 0x16 ∧
    (buildRcChannelsFrame (fun _ => 992)).getD 25 0 =
      crc8 (((buildRcChannelsFrame (fun _ => 992)).drop 1).take 23) ∧
    (buildRcChannelsFrame (fun _ => 992)).getD 25 0 ≠
      crc8 (((buildRcChannelsFrame (fun _ => 992)).drop 1).take 24) := by
  decide

/-- Claim C2: the bind command (function 0x2D, payload EE EF 00 01) shows the
builder emitting checksum 0x28, the XOR of size, function and only the first
three payload bytes, while the XOR over size, function and all four payload
bytes is 0x29: calculateMspCrc(&out[3], payload_size + 1) stops one byte
short of the end of the frame. -/
theorem msp_command_checksum_bug_C2 :
    buildMspCommand 0x2D [0xEE, 0xEF, 0x00, 0x01] =
      [0x24, 0x4D, 0x3C, 0x04, 0x2D, 0xEE, 0xEF, 0x00, 0x01, 0x28] ∧
    calculateMspCrc [0x04, 0x2D, 0xEE, 0xEF, 0x00, 0x01] = 0x29 := by
  decide

/-- Claim C3 counterexample: at stick input 0 the mapping yields
floor(172 + 0.5 * 1639) = floor(991.5) = 991, not the 992 the claim states
(all intermediate binary32 values at this input are exact, so the float code
computes the same number). -/
theorem map_stick_midpoint_C3_counterexample : mapStickToChannel 0 ≠ 992 := by
  norm_num [mapStickToChannel, CRSF_CHANNEL_VALUE_MIN, CRSF_CHANNEL_VALUE_MAX] <;> decide

/-- Claim C3 (amended): the endpoint values are as claimed, but the midpoint
maps to 991; out-of-domain inputs are clamped to the endpoints first. -/
theorem map_stick_throttle_endpoints_C3 :
    mapStickToChannel (-1) = 172 ∧ mapStickToChannel 0 = 991 ∧
    mapStickToChannel 1 = 1811 ∧ mapThrottleToChannel 0 = 172 ∧
    mapThrottleToChannel 1 = 1811 ∧ mapStickToChannel (-2) = 172 ∧
    mapStickToChannel 2 = 1811 ∧ mapThrottleToChannel (-1) = 172 ∧
    mapThrottleToChannel 2 = 1811 := by
  norm_num [mapStickToChannel, mapThrottleToChannel, CRSF_CHANNEL_VALUE_MIN,
    CRSF_CHANNEL_VALUE_MAX] <;> decide

/-- Claim C4: feeding 0xFF 0xFF and then a fully valid RC-channels frame
(address 0xC8, length 24, type 0x16, a 22-byte payload and the matching
CRC-8/DVB-S2) emits nothing: the deframer takes the first 0xFF as the address
and the second as a body length of 255, so the whole valid frame is swallowed
into the pending 255-byte body.  The same frame without the garbage prefix is
emitted, confirming the frame itself is valid. -/
theorem crsf_deframer_swallowed_frame_C4 :
    (crsfRun crsfInit ([0xFF, 0xFF, 0xC8, 24, 0x16] ++ List.replicate 22 0 ++
        [crc8_dvb_s2 (0x16 :: List.replicate 22 0)])).2 = [] ∧
    (crsfRun crsfInit ([0xC8, 24, 0x16] ++ List.replicate 22 0 ++
        [crc8_dvb_s2 (0x16 :: List.replicate 22 0)])).2 =
      [(0xC8, 0x16, List.replicate 22 0)] := by
  decide

/-- Claim C6: with all 16 channels at 992, the packed payload is the fixed
22-byte CRSF test vector, both as the output of packChannels and as frame
bytes 3..24 of the built frame. -/
theorem pack_channels_mid_vector_C6 :
    packChannels (fun _ => 992) =
      [0xE0, 0x03, 0x1F, 0xF8, 0xC0, 0x07, 0x3E, 0xF0, 0x81, 0x0F, 0x7C,
       0xE0, 0x03, 0x1F, 0xF8, 0xC0, 0x07, 0x3E, 0xF0, 0x81, 0x0F, 0x7C] ∧
    ((buildRcChannelsFrame (fun _ => 992)).drop 3).take 22 =
      [0xE0, 0x03, 0x1F, 0xF8, 0xC0, 0x07, 0x3E, 0xF0, 0x81, 0x0F, 0x7C,
       0xE0, 0x03, 0x1F, 0xF8, 0xC0, 0x07, 0x3E, 0xF0, 0x81, 0x0F, 0x7C] := by
  decide

/-- Claim C8: whatever the prior control inputs, after emergencyStop all four
axes are zero and all three switches are off. -/
theorem emergency_stop_safe_C8 (s : ControlInputs) :
    (emergencyStop s).roll = 0 ∧ (emergencyStop s).pitch = 0 ∧
    (emergencyStop s).yaw = 0 ∧ (emergencyStop s).throttle = 0 ∧
    (emergencyStop s).armed = false ∧ (emergencyStop s).mode1 = false ∧
    (emergencyStop s).mode2 = false :=
  ⟨rfl, rfl, rfl, rfl, rfl, rfl, rfl⟩

/-- Claim C7: an ingress MSP frame with function 0x2D whose payload has length
between 4 and 9 is published with the compact layout: rssi1 is payload[0] as a
signed 8-bit value, rssi2 repeats rssi1, link quality is payload[1], snr is
payload[2] as signed 8-bit, tx power is payload[3], and the stats are marked
valid; bytes past the fourth become spectrum bins. -/
theorem link_stats_compact_C7 (p : List Nat) (h4 : 4 ≤ p.length) (h9 : p.length ≤ 9) :
    handleMspFrame 0x2D true p =
      MspAction.publishLink
        { rssi1 := int8 (p.getD 0 0), rssi2 := int8 (p.getD 0 0),
          link_quality := (p.getD 1 0 : Int), snr := int8 (p.getD 2 0),
          tx_power := (p.getD 3 0 : Int), valid := true } (p.drop 4) := by
  have hne : ¬ p.length = 0 := by omega
  have h10 : ¬ 10 ≤ p.length := by omega
  simp [handleMspFrame, parseLinkStats, hne, h10, h4]

/-- Claim C7 witness: the concrete payload A4 5A 0A 14 yields
rssi1 = rssi2 = -92, link quality 90, snr 10, tx power 20, valid, and no
spectrum bins. -/
theorem link_stats_compact_C7_witness :
    handleMspFrame 0x2D true [0xA4, 0x5A, 0x0A, 0x14] =
      MspAction.publishLink
        { rssi1 := -92, rssi2 := -92, link_quality := 90, snr := 10,
          tx_power := 20, valid := true } [] :=
  (link_stats_compact_C7 [0xA4, 0x5A, 0x0A, 0x14] (by decide) (by decide)).trans
    (by decide)

/-- Claim C9 (amended): when an observer is subscribed, every update operation
invokes the callback exactly once per call — except updateSpectrumData, which
returns without notifying when handed an empty bin list (its early-return
guard), so there the claim only holds for non-empty input. -/
theorem radio_state_update_notifies_once_C9 (s : RadioState)
    (h : s.hasCallback = true) (t : LiveTelemetry) (r1 r2 q pw tmp : Int)
    (rx tx lost : Nat) (v c : ℚ) (data : List Int) :
    (updateTelemetry s t).notifyCount = s.notifyCount + 1 ∧
    (updateRSSI s r1 r2).notifyCount = s.notifyCount + 1 ∧
    (updateLinkQuality s q).notifyCount = s.notifyCount + 1 ∧
    (updateTxPower s pw).notifyCount = s.notifyCount + 1 ∧
    (updatePacketStats s rx tx lost).notifyCount = s.notifyCount + 1 ∧
    (updateBattery s v c).notifyCount = s.notifyCount + 1 ∧
    (updateTemperature s tmp).notifyCount = s.notifyCount + 1 ∧
    (data ≠ [] → (updateSpectrumData s data).notifyCount = s.notifyCount + 1) := by
  refine ⟨?_, ?_, ?_, ?_, ?_, ?_, ?_, ?_⟩
  · simp [updateTelemetry, notifyStateChange, h]
  · simp [updateRSSI, notifyStateChange, h]
  · simp [updateLinkQuality, notifyStateChange, h]
  · simp [updateTxPower, notifyStateChange, h]
  · simp [updatePacketStats, notifyStateChange, h]
  · simp [updateBattery, notifyStateChange, h]
  · simp [updateTemperature, notifyStateChange, h]
  · intro hd
    simp [updateSpectrumData, hd, notifyStateChange, h]

/-- Claim C9 counterexample: on a state with a subscribed observer,
updateSpectrumData with an empty list performs no notification at all, so the
claimed exactly-one-callback property fails for that operation and argument. -/
theorem spectrum_empty_no_notify_C9_counterexample :
    radioState0.hasCallback = true ∧
    (updateSpectrumData radioState0 []).notifyCount ≠ radioState0.notifyCount + 1 := by
  decide

/-- Claim C9 witness: on the concrete subscribed state, a non-empty spectrum
update notifies exactly once. -/
theorem radio_state_update_notifies_once_C9_witness :
    (updateSpectrumData radioState0 [5]).notifyCount = radioState0.notifyCount + 1 :=
  (radio_state_update_notifies_once_C9 radioState0 rfl radioState0.live
    0 0 0 0 0 0 0 0 0 0 [5]).2.2.2.2.2.2.2 (by decide)

/-- Claim C10: updateLinkQuality stores max(0, min(100, q)), the stored value
lies in [0, 100], and the value appended to the link-quality history is that
clamped value, not the raw argument. -/
theorem link_quality_clamped_C10 (s : RadioState) (q : Int) :
    (updateLinkQuality s q).live.linkQuality = max 0 (min 100 q) ∧
    0 ≤ (updateLinkQuality s q).live.linkQuality ∧
    (updateLinkQuality s q).live.linkQuality ≤ 100 ∧
    (updateLinkQuality s q).lqHistory.getLast? = some (max 0 (min 100 q)) := by
  have h1 : (updateLinkQuality s q).live.linkQuality = max 0 (min 100 q) := by
    simp [updateLinkQuality, notifyStateChange_live]
  have h2 : (updateLinkQuality s q).lqHistory =
      addToHistory s.lqHistory (max 0 (min 100 q)) := by
    simp [updateLinkQuality, notifyStateChange_lqHistory]
  refine ⟨h1, ?_, ?_, ?_⟩
  · rw [h1]
    omega
  · rw [h1]
    omega
  · rw [h2]
    exact addToHistory_getLast _ _

/-- XOR over a list extended on the right peels off the last byte. -/
theorem xorAll_append_one (l : List Nat) (b : Nat) :
    xorAll (l ++ [b]) = xorAll l ^^^ b := by
  simp [xorAll, List.foldl_append]

/-- The reset state of the MSP parser satisfies the checksum invariant. -/
theorem mspInv_init : MspChecksumInv mspReset := by
  simp [MspChecksumInv, mspReset]

/-- Feeding one byte preserves the MSP checksum invariant. -/
theorem mspInv_step (s : MspParserState) (b : Nat) (h : MspChecksumInv s) :
    MspChecksumInv (feedMspByte s b).1 := by
  obtain ⟨h1, h2⟩ := h
  cases hst : s.st with
  | Idle =>
      by_cases hb : b = 36 <;> simp [feedMspByte, hst, hb, MspChecksumInv]
  | ExpectM =>
      by_cases hb : b = 77 <;> simp [feedMspByte, hst, hb, MspChecksumInv, mspReset]
  | ExpectDirection =>
      by_cases hb : b = 60 ∨ b = 62 <;>
        simp [feedMspByte, hst, hb, MspChecksumInv, mspReset]
  | ExpectLength =>
      simp [feedMspByte, hst, MspChecksumInv]
  | ExpectFunction =>
      obtain ⟨hc, hp⟩ := h1 hst
      by_cases hz : s.expectedLength = 0 <;>
        simp [feedMspByte, hst, hz, MspChecksumInv, hc, hp, xorAll]
  | ReadPayload =>
      have hc := h2 (Or.inl hst)
      simp [feedMspByte, hst, MspChecksumInv, hc]
      refine ⟨by split <;> simp, fun _ => ?_⟩
      rw [show s.expectedLength :: s.func :: (s.payload ++ [b]) =
            (s.expectedLength :: s.func :: s.payload) ++ [b] from by simp,
          xorAll_append_one]
  | ExpectChecksum =>
      simp [feedMspByte, hst, MspChecksumInv, mspReset]

/-- Any frame emitted by a single byte under the invariant carries a checksum
byte equal to the XOR of its length byte, function byte and payload. -/
theorem mspFeed_emits_valid (s : MspParserState) (b : Nat) (h : MspChecksumInv s) :
    ∀ f ∈ (feedMspByte s b).2,
      f.chkByte = xorAll (f.lenByte :: f.func :: f.payload) := by
  intro f hf
  cases hst : s.st <;> simp [feedMspByte, hst] at hf
  case ExpectChecksum =>
    obtain ⟨hcb, hfeq⟩ := hf
    subst hfeq
    have hsum := h.2 (Or.inr hst)
    simpa using hcb ▸ hsum

/-- Every frame a byte list ever hands to handleMspFrame satisfies the
checksum discipline. -/
theorem mspRun_emits_valid (l : List Nat) (s : MspParserState) (h : MspChecksumInv s) :
    ∀ f ∈ (mspRun s l).2,
      f.chkByte = xorAll (f.lenByte :: f.func :: f.payload) := by
  induction l generalizing s with
  | nil =>
      intro f hf
      simp [mspRun] at hf
  | cons b rest ih =>
      intro f hf
      simp only [mspRun, List.mem_append] at hf
      rcases hf with hf | hf
      · exact mspFeed_emits_valid s b h f hf
      · exact ih (feedMspByte s b).1 (mspInv_step s b h) f hf

/-- Claim C5: for every byte stream fed one byte at a time from the initial
parser state, every frame that survives to the dispatch switch (past the
handleMspFrame ingress guard) has direction inbound and a trailing checksum
byte equal to the XOR of its length byte, function byte and all payload
bytes; outbound-direction or checksum-mismatched frames are never
dispatched. -/
theorem msp_dispatch_only_valid_C5 (stream : List Nat)
    (hbytes : ∀ b ∈ stream, b < 256) :
    ∀ f ∈ mspDispatched stream,
      f.fromDevice = true ∧ f.chkByte = xorAll (f.lenByte :: f.func :: f.payload) := by
  intro f hf
  have hf2 := List.mem_filter.mp hf
  exact ⟨hf2.2, mspRun_emits_valid stream mspReset mspInv_init f hf2.1⟩

/-- Claim C5 witness: a concrete inbound link-stats frame is dispatched (the
dispatched list is exactly that frame) and the theorem applies to it. -/
theorem msp_dispatch_only_valid_C5_witness :
    (∀ b ∈ ([36, 77, 62, 4, 0x2D, 0xA4, 0x5A, 0x0A, 0x14, 0xC9] : List Nat), b < 256) ∧
    mspDispatched [36, 77, 62, 4, 0x2D, 0xA4, 0x5A, 0x0A, 0x14, 0xC9] =
      [⟨0x2D, true, 4, [0xA4, 0x5A, 0x0A, 0x14], 0xC9⟩] ∧
    (∀ f ∈ mspDispatched [36, 77, 62, 4, 0x2D, 0xA4, 0x5A, 0x0A, 0x14, 0xC9],
      f.fromDevice = true ∧ f.chkByte = xorAll (f.lenByte :: f.func :: f.payload)) :=
  ⟨by decide, by decide,
    msp_dispatch_only_valid_C5 [36, 77, 62, 4, 0x2D, 0xA4, 0x5A, 0x0A, 0x14, 0xC9]
      (by decide)⟩
